import Mathlib

/-!
Shallow embedding of the crypto_bot repository (src/unnamed/part_000 and
src/expandswap.js): the position-monitoring stop-loss state machine
(`monitorTokenPrice`), the buy/monitor/sell coordinator (`processNewEntries`),
the swap wrapper (`ExpandSwap.executeSwap`, `ExpandSwap.approveToken`,
`ExpandSwap.getPriceQuote`) and the discovery loop (`main`).

Quote values and the stop-loss fraction are modelled as rationals (ℚ);
the fetch result of a poll is `Option ℚ` (`none` = the quote fetch threw and
was caught by the catch clause of the loop).
-/

namespace CryptoBot

/-- One iteration body of the `while (true)` loop in `monitorTokenPrice`
(src/unnamed/part_000, lines 204-225), for one fetch result.
Returns the new `maxUSDTValue` and whether the sell signal
(`return true`) fires on this poll.  A failed fetch (`none`) is the
`catch` branch: log only, nothing changes, no signal. -/
def pollBody (stopLossPercentage maxUSDTValue : ℚ) (fetch : Option ℚ) : ℚ × Bool :=
  match fetch with
  | none => (maxUSDTValue, false)
  | some usdtValue =>
    let newMax := if usdtValue > maxUSDTValue then usdtValue else maxUSDTValue
    (newMax, decide (usdtValue < newMax * (1 - stopLossPercentage)))

/-- Result of running the `monitorTokenPrice` loop on a finite trace of
fetch results: the final `maxUSDTValue`, whether the loop returned
`true` (sell signal), and the fetch results left unconsumed because the
loop returned before reaching them. -/
structure RunResult where
  maxUSDTValue : ℚ
  sellSignal : Bool
  unconsumed : List (Option ℚ)
  deriving Repr, DecidableEq

/-- The `while (true)` loop of `monitorTokenPrice`, run on a finite trace
of fetch results.  The loop returns (`return true`, src line 218) the
moment the drop condition holds; fetch results after that point are
returned unconsumed.  An exhausted trace models a loop still running
(`sellSignal = false`). -/
def monitorLoop (stopLossPercentage maxUSDTValue : ℚ) :
    List (Option ℚ) → RunResult
  | [] => ⟨maxUSDTValue, false, []⟩
  | fetch :: rest =>
    let step := pollBody stopLossPercentage maxUSDTValue fetch
    if step.2 then ⟨step.1, true, rest⟩
    else monitorLoop stopLossPercentage step.1 rest

/-- The monitor as called: `maxUSDTValue` starts at 0 and the
default `stopLossPercentage` is 0.001 (src lines 201-202). -/
def monitorTokenPrice (quotes : List (Option ℚ)) : RunResult :=
  monitorLoop (1/1000) 0 quotes

/-- The successfully fetched quote values of a trace, in order. -/
def successes (quotes : List (Option ℚ)) : List ℚ :=
  quotes.filterMap id

theorem successes_nil : successes [] = [] := rfl

theorem successes_cons_none (qs : List (Option ℚ)) :
    successes (none :: qs) = successes qs := rfl

theorem successes_cons_some (v : ℚ) (qs : List (Option ℚ)) :
    successes (some v :: qs) = v :: successes qs := rfl

/-- The updated high-water mark never goes down in one poll. -/
theorem pollBody_fst_ge (f m : ℚ) (q : Option ℚ) : m ≤ (pollBody f m q).1 := by
  cases q with
  | none => simp [pollBody]
  | some v =>
    simp only [pollBody]
    split
    · simp_all; linarith
    · simp_all

/-- The final high-water mark of a run is at least the starting one. -/
theorem monitorLoop_fst_ge (f : ℚ) (qs : List (Option ℚ)) :
    ∀ m : ℚ, m ≤ (monitorLoop f m qs).maxUSDTValue := by
  induction qs with
  | nil => intro m; simp [monitorLoop]
  | cons q rest ih =>
    intro m
    simp only [monitorLoop]
    split
    · exact pollBody_fst_ge f m q
    · exact le_trans (pollBody_fst_ge f m q) (ih _)

/-- Appending further fetches: if the first part did not signal, the run
continues from its high-water mark; if it signalled, the appended part
is returned unconsumed and nothing else changes. -/
theorem monitorLoop_append (f : ℚ) (qs : List (Option ℚ)) :
    ∀ (m : ℚ) (post : List (Option ℚ)),
      monitorLoop f m (qs ++ post) =
        if (monitorLoop f m qs).sellSignal then
          ⟨(monitorLoop f m qs).maxUSDTValue, true,
            (monitorLoop f m qs).unconsumed ++ post⟩
        else monitorLoop f (monitorLoop f m qs).maxUSDTValue post := by
  induction qs with
  | nil => intro m post; simp [monitorLoop]
  | cons q rest ih =>
    intro m post
    simp only [List.cons_append, monitorLoop]
    split
    · simp
    · exact ih _ post

theorem list_le_foldl_max (l : List ℚ) : ∀ a : ℚ, a ≤ l.foldl max a := by
  induction l with
  | nil => intro a; simp
  | cons v t ih =>
    intro a
    calc a ≤ max a v := le_max_left a v
    _ ≤ (v :: t).foldl max a := by simpa using ih (max a v)

theorem list_mem_le_foldl_max (l : List ℚ) :
    ∀ (a v : ℚ), v ∈ l → v ≤ l.foldl max a := by
  induction l with
  | nil => intro a v hv; simp at hv
  | cons w t ih =>
    intro a v hv
    rcases List.mem_cons.mp hv with h | h
    · subst h
      calc v ≤ max a v := le_max_right a v
      _ ≤ (v :: t).foldl max a := by simpa using list_le_foldl_max t (max a v)
    · simpa using ih (max a w) v h

theorem list_foldl_max_mem (l : List ℚ) :
    ∀ a : ℚ, l.foldl max a = a ∨ l.foldl max a ∈ l := by
  induction l with
  | nil => intro a; left; rfl
  | cons v t ih =>
    intro a
    rcases ih (max a v) with h | h
    · rcases max_choice a v with hc | hc
      · left; simpa [hc] using h
      · right; simp only [List.foldl_cons]
        rw [h, hc]; exact List.mem_cons_self v t
    · right
      simp only [List.foldl_cons]
      exact List.mem_cons_of_mem v h

/-- While the loop has not signalled, the high-water mark is the fold of
`max` over the successfully fetched values, started at the initial mark. -/
theorem monitorLoop_max_eq (f : ℚ) (qs : List (Option ℚ)) :
    ∀ m : ℚ, (monitorLoop f m qs).sellSignal = false →
      (monitorLoop f m qs).maxUSDTValue = (successes qs).foldl max m := by
  induction qs with
  | nil => intro m _; rfl
  | cons q rest ih =>
    intro m hw
    cases q with
    | none =>
      have hstep : pollBody f m none = (m, false) := rfl
      simp only [monitorLoop, hstep] at hw ⊢
      simpa [successes_cons_none] using ih m (by simpa using hw)
    | some v =>
      simp only [monitorLoop, pollBody] at hw ⊢
      by_cases htr : v > m
      · simp only [htr, if_true] at hw ⊢
        rcases hsig : decide (v < v * (1 - f)) with _ | _
        · simp only [hsig, if_neg Bool.false_ne_true] at hw ⊢
          rw [ih v (by simpa using hw), successes_cons_some]
          simp [max_eq_right (le_of_lt htr)]
        · simp [hsig] at hw
      · simp only [htr, if_false] at hw ⊢
        rcases hsig : decide (v < m * (1 - f)) with _ | _
        · simp only [hsig, if_neg Bool.false_ne_true] at hw ⊢
          rw [ih m (by simpa using hw), successes_cons_some]
          simp [max_eq_left (le_of_not_lt htr)]
        · simp [hsig] at hw

/-- C1: while the monitor is still watching (no sell signal), the
high-water mark is non-decreasing as further polls arrive, and after each
successful poll it equals the maximum quote value observed so far: it is
one of the observed values and bounds all of them (nonnegative quotes,
as amounts are). -/
theorem monitor_high_water_mark (qs rest : List (Option ℚ))
    (hnn : ∀ v ∈ successes qs, 0 ≤ v) :
    (monitorTokenPrice qs).maxUSDTValue ≤
      (monitorTokenPrice (qs ++ rest)).maxUSDTValue ∧
    ((monitorTokenPrice qs).sellSignal = false →
      (monitorTokenPrice qs).maxUSDTValue = (successes qs).foldl max 0 ∧
      (successes qs ≠ [] →
        (monitorTokenPrice qs).maxUSDTValue ∈ successes qs ∧
        ∀ v ∈ successes qs, v ≤ (monitorTokenPrice qs).maxUSDTValue)) := by
  constructor
  · rw [monitorTokenPrice, monitorTokenPrice, monitorLoop_append]
    split
    · exact le_refl _
    · exact monitorLoop_fst_ge _ rest _
  · intro hw
    have heq : (monitorTokenPrice qs).maxUSDTValue = (successes qs).foldl max 0 :=
      monitorLoop_max_eq (1/1000) qs 0 hw
    refine ⟨heq, fun hne => ⟨?_, ?_⟩⟩
    · rcases list_foldl_max_mem (successes qs) 0 with h | h
      · rw [heq, h]
        rcases List.exists_mem_of_ne_nil (successes qs) hne with ⟨w, hwmem⟩
        have hle : w ≤ 0 := h ▸ list_mem_le_foldl_max (successes qs) 0 w hwmem
        have hge : 0 ≤ w := hnn w hwmem
        have : w = 0 := le_antisymm hle hge
        exact this ▸ hwmem
      · exact heq ▸ h
    · intro v hv
      rw [heq]
      exact list_mem_le_foldl_max (successes qs) 0 v hv

/-- C1 witness: a concrete watching run. -/
theorem monitor_high_water_mark_witness :
    (∀ v ∈ successes [some 5, none, some 5], (0 : ℚ) ≤ v) ∧
    ((monitorTokenPrice [some 5, none, some 5]).maxUSDTValue ≤
        (monitorTokenPrice ([some 5, none, some 5] ++ [some 7])).maxUSDTValue ∧
      ((monitorTokenPrice [some 5, none, some 5]).sellSignal = false →
        (monitorTokenPrice [some 5, none, some 5]).maxUSDTValue =
          (successes [some 5, none, some 5]).foldl max 0 ∧
        (successes [some 5, none, some 5] ≠ [] →
          (monitorTokenPrice [some 5, none, some 5]).maxUSDTValue ∈
            successes [some 5, none, some 5] ∧
          ∀ v ∈ successes [some 5, none, some 5],
            v ≤ (monitorTokenPrice [some 5, none, some 5]).maxUSDTValue))) :=
  ⟨by decide, monitor_high_water_mark [some 5, none, some 5] [some 7] (by decide)⟩

/-- C2: with a nonnegative high-water mark H and stop-loss fraction f in
(0, 1), a successfully fetched quote v fires the sell signal on this
poll iff v < H * (1 - f); in particular the boundary v = H * (1 - f)
does not fire (strict inequality in the source, line 216). -/
theorem trigger_iff_below_threshold (H f v : ℚ)
    (hH : 0 ≤ H) (hf0 : 0 < f) (hf1 : f < 1) :
    ((pollBody f H (some v)).2 = true ↔ v < H * (1 - f)) ∧
    (pollBody f H (some (H * (1 - f)))).2 = false := by
  have hth : H * (1 - f) ≤ H := by nlinarith
  constructor
  · simp only [pollBody, decide_eq_true_eq]
    by_cases hgt : v > H
    · have hvpos : 0 < v := lt_of_le_of_lt hH hgt
      simp only [hgt, if_true]
      constructor
      · intro habs; nlinarith
      · intro habs; nlinarith
    · simp [hgt]
  · simp only [pollBody, decide_eq_true_eq]
    have hngt : ¬ H * (1 - f) > H := not_lt.mpr hth
    simp [hngt]

/-- C2 witness: H = 100, f = 1/10, threshold 90; v = 89 fires. -/
theorem trigger_iff_below_threshold_witness :
    ((0 : ℚ) ≤ 100 ∧ (0 : ℚ) < 1/10 ∧ (1/10 : ℚ) < 1) ∧
    (((pollBody (1/10) 100 (some 89)).2 = true ↔ (89 : ℚ) < 100 * (1 - 1/10)) ∧
      (pollBody (1/10) 100 (some (100 * (1 - 1/10)))).2 = false) :=
  ⟨⟨by norm_num, by norm_num, by norm_num⟩,
    trigger_iff_below_threshold 100 (1/10) 89 (by norm_num) (by norm_num) (by norm_num)⟩

/-- C4: when the fresh quote v raises the high-water mark (v > current
mark m ≥ 0), the drop condition of this poll is evaluated against the new
ceiling v itself — and hence never fires on that same poll (0 < f). -/
theorem trigger_uses_updated_ceiling (m f v : ℚ)
    (hm : 0 ≤ m) (hv : v > m) (hf : 0 < f) :
    (pollBody f m (some v)).1 = v ∧
    ((pollBody f m (some v)).2 = true ↔ v < v * (1 - f)) ∧
    (pollBody f m (some v)).2 = false := by
  have hvpos : 0 < v := lt_of_le_of_lt hm hv
  refine ⟨by simp [pollBody, hv], by simp [pollBody, hv], ?_⟩
  simp only [pollBody, hv, if_true, decide_eq_true_eq]
  simp only [decide_eq_false_iff_not]
  intro habs
  nlinarith

/-- C4 witness: mark 10, quote 20, f = 1/10. -/
theorem trigger_uses_updated_ceiling_witness :
    ((0 : ℚ) ≤ 10 ∧ (20 : ℚ) > 10 ∧ (0 : ℚ) < 1/10) ∧
    ((pollBody (1/10) 10 (some 20)).1 = 20 ∧
      ((pollBody (1/10) 10 (some 20)).2 = true ↔ (20 : ℚ) < 20 * (1 - 1/10)) ∧
      (pollBody (1/10) 10 (some 20)).2 = false) :=
  ⟨⟨by norm_num, by norm_num, by norm_num⟩,
    trigger_uses_updated_ceiling 10 (1/10) 20 (by norm_num) (by norm_num) (by norm_num)⟩

/-- C5: a failed quote fetch (the `catch` branch, lines 220-222) leaves
the high-water mark and the watching state untouched, fires no sell
signal, and the loop simply retries on the next poll; more generally a
high-water mark and sell signal of a run are exactly those of the run on
the successful fetches alone. -/
theorem fetch_failure_is_transparent (f m : ℚ) (qs : List (Option ℚ)) :
    pollBody f m none = (m, false) ∧
    monitorLoop f m (none :: qs) = monitorLoop f m qs ∧
    (monitorLoop f m qs).maxUSDTValue =
      (monitorLoop f m ((successes qs).map some)).maxUSDTValue ∧
    (monitorLoop f m qs).sellSignal =
      (monitorLoop f m ((successes qs).map some)).sellSignal := by
  refine ⟨rfl, by simp [monitorLoop, pollBody], ?_⟩
  induction qs generalizing m with
  | nil => exact ⟨rfl, rfl⟩
  | cons q rest ih =>
    cases q with
    | none =>
      simpa [monitorLoop, pollBody, successes_cons_none] using ih m
    | some v =>
      simp only [successes_cons_some, List.map_cons, monitorLoop]
      split
      · exact ⟨rfl, rfl⟩
      · exact ih _

/-- State of one monitor task observed at 5-second tick boundaries: the
loop of `monitorTokenPrice` performs one poll per tick while it has not
returned.  `polls` counts the polls performed so far.  Selling the
position is not an input: nothing in the source cancels a running
monitor loop. -/
structure TickState where
  maxUSDTValue : ℚ
  triggered : Bool
  polls : ℕ
  deriving Repr, DecidableEq

/-- Run one monitor for n ticks on a per-tick fetch feed.  Once the loop
has returned (`triggered`), no further iteration runs; until then it
polls every tick. -/
def tickRun (stopLossPercentage : ℚ) (feed : ℕ → Option ℚ) : ℕ → TickState
  | 0 => ⟨0, false, 0⟩
  | n + 1 =>
    let s := tickRun stopLossPercentage feed n
    if s.triggered then s
    else
      let step := pollBody stopLossPercentage s.maxUSDTValue (feed n)
      ⟨step.1, step.2, s.polls + 1⟩

/-- The sell order of processNewEntries (lines 191-198): first the token
whose monitor won the race, then every other bought token in list order.
JS object identity is modelled by values of a type with decidable
equality. -/
def sellOrder {α : Type} [DecidableEq α] (boughtTokens : List α) (tokenToSell : α) :
    List α :=
  tokenToSell :: boughtTokens.filter (fun t => t ≠ tokenToSell)

/-- Sequential `await sellToken(...)` calls with no try/catch (lines
191-198): each call either succeeds and the next is attempted, or throws
and the whole function rejects at once.  Returns the overall outcome and
the list of sells actually attempted, in order. -/
def attemptSells {α : Type} (sell : α → Except String Unit) :
    List α → Except String Unit × List α
  | [] => (.ok (), [])
  | t :: rest =>
    match sell t with
    | .ok _ =>
      let r := attemptSells sell rest
      (r.1, t :: r.2)
    | .error e => (.error e, [t])

/-- Winner feed for the C3 scenario: the quote peaks at 100 then drops
to 10, firing the stop-loss on the second poll. -/
def feedA : ℕ → Option ℚ := fun n => if n = 0 then some 100 else some 10

/-- Loser feed for the C3 scenario: a constant quote of 50 — this
monitor never fires. -/
def feedB : ℕ → Option ℚ := fun _ => some 50

/-- An always-succeeding sell collaborator. -/
def sellAlwaysOk : ℕ → Except String Unit := fun _ => .ok ()

/-- C3 counterexample: the monitor of token 0 (feedA) fires after 2 polls,
and the liquidation sweep sells token 1 too; yet the monitor of token 1
(feedB) is still running afterwards and performs its 3rd and 4th polls
— a sold position is not removed from active monitoring. -/
theorem sold_position_still_polled :
    (tickRun (1/1000) feedA 2).triggered = true ∧
    (tickRun (1/1000) feedA 2).polls = 2 ∧
    (attemptSells sellAlwaysOk (sellOrder [0, 1] 0)).2 = [0, 1] ∧
    (tickRun (1/1000) feedB 2).polls = 2 ∧
    (tickRun (1/1000) feedB 4).triggered = false ∧
    (tickRun (1/1000) feedB 4).polls = 4 := by
  refine ⟨?_, ?_, ?_, ?_, ?_, ?_⟩
  · norm_num [tickRun, pollBody, feedA]
  · norm_num [tickRun, pollBody, feedA]
  · simp [attemptSells, sellOrder, sellAlwaysOk]
  · norm_num [tickRun, pollBody, feedB]
  · norm_num [tickRun, pollBody, feedB]
  · norm_num [tickRun, pollBody, feedB]

/-- C3 as amended: once the own sell signal of a monitor has fired, no later
fetch is consumed, the high-water mark is frozen and the drop condition
is never re-evaluated; but a monitor whose own signal has not fired keeps
polling at every tick — selling the position does not stop it. -/
theorem triggered_monitor_stops_but_sold_does_not
    (f m : ℚ) (pre post : List (Option ℚ)) (feed : ℕ → Option ℚ) (n : ℕ)
    (h : (monitorLoop f m pre).sellSignal = true)
    (h2 : (tickRun f feed n).triggered = false) :
    monitorLoop f m (pre ++ post) =
      ⟨(monitorLoop f m pre).maxUSDTValue, true,
        (monitorLoop f m pre).unconsumed ++ post⟩ ∧
    (tickRun f feed (n + 1)).polls = (tickRun f feed n).polls + 1 := by
  constructor
  · rw [monitorLoop_append, if_pos h]
  · simp [tickRun, h2]

/-- C3 amended-claim witness. -/
theorem triggered_monitor_stops_but_sold_does_not_witness :
    ((monitorLoop (1/1000) 0 [some 100, some 10]).sellSignal = true ∧
      (tickRun (1/1000) feedB 1).triggered = false) ∧
    (monitorLoop (1/1000) 0 ([some 100, some 10] ++ [some 1]) =
      ⟨(monitorLoop (1/1000) 0 [some 100, some 10]).maxUSDTValue, true,
        (monitorLoop (1/1000) 0 [some 100, some 10]).unconsumed ++ [some 1]⟩ ∧
      (tickRun (1/1000) feedB (1 + 1)).polls = (tickRun (1/1000) feedB 1).polls + 1) :=
  ⟨⟨by norm_num [monitorLoop, pollBody], by norm_num [tickRun, pollBody, feedB]⟩,
    triggered_monitor_stops_but_sold_does_not (1/1000) 0 [some 100, some 10]
      [some 1] feedB 1 (by norm_num [monitorLoop, pollBody])
      (by norm_num [tickRun, pollBody, feedB])⟩

/-- When every sell succeeds, the sweep completes and attempts exactly
the planned order. -/
theorem attemptSells_all_ok {α : Type} (sell : α → Except String Unit)
    (l : List α) (hok : ∀ t, sell t = .ok ()) :
    attemptSells sell l = (.ok (), l) := by
  induction l with
  | nil => rfl
  | cons t rest ih => simp [attemptSells, hok t, ih]

/-- C6: with the winner among the bought tokens (all distinct), and all
sells succeeding, the sweep after the race sells the winner first and
then each remaining token in order, each bought token exactly once —
the loop filters only on identity, never on the monitor state of a token. -/
theorem all_positions_sold_once (sell : ℕ → Except String Unit)
    (tokens : List ℕ) (winner : ℕ)
    (hmem : winner ∈ tokens) (hnd : tokens.Nodup)
    (hok : ∀ t, sell t = .ok ()) :
    (attemptSells sell (sellOrder tokens winner)).1 = .ok () ∧
    (attemptSells sell (sellOrder tokens winner)).2 = sellOrder tokens winner ∧
    ∀ t ∈ tokens, ((attemptSells sell (sellOrder tokens winner)).2).count t = 1 := by
  rw [attemptSells_all_ok sell _ hok]
  refine ⟨rfl, rfl, ?_⟩
  intro t ht
  by_cases hw : t = winner
  · subst hw
    rw [sellOrder, List.count_cons_self]
    have : t ∉ tokens.filter (fun x => x ≠ t) := by
      intro habs
      have := List.of_mem_filter habs
      simp at this
    rw [List.count_eq_zero.mpr this]
  · rw [sellOrder, List.count_cons_of_ne hw, List.count_filter (by simpa using hw)]
    exact List.count_eq_one_of_mem hnd ht

/-- C6 witness: tokens 3, 1, 2 with winner 1. -/
theorem all_positions_sold_once_witness :
    ((1 ∈ [3, 1, 2]) ∧ List.Nodup [3, 1, 2] ∧
      ∀ t : ℕ, sellAlwaysOk t = .ok ()) ∧
    ((attemptSells sellAlwaysOk (sellOrder [3, 1, 2] 1)).1 = .ok () ∧
      (attemptSells sellAlwaysOk (sellOrder [3, 1, 2] 1)).2 = sellOrder [3, 1, 2] 1 ∧
      ∀ t ∈ [3, 1, 2],
        ((attemptSells sellAlwaysOk (sellOrder [3, 1, 2] 1)).2).count t = 1) :=
  ⟨⟨by decide, by decide, fun _ => rfl⟩,
    all_positions_sold_once sellAlwaysOk [3, 1, 2] 1 (by decide) (by decide)
      (fun _ => rfl)⟩

/-- A sell collaborator that throws for token 0 (the primary) and
succeeds for every other token. -/
def sellFailPrimary : ℕ → Except String Unit :=
  fun t => if t = 0 then .error "sell failed" else .ok ()

/-- C7 counterexample: two bought tokens 0 and 1, the race won by 0,
whose sell throws.  The error does surface (processNewEntries rejects
with it), but — contrary to the claim — the sweep is aborted: the sell of
token 1 is never attempted, because the `await sellToken(tokenToSell...)`
on line 191 has no try/catch around it. -/
theorem primary_sell_failure_aborts_sweep :
    (attemptSells sellFailPrimary (sellOrder [0, 1] 0)).1 = .error "sell failed" ∧
    (attemptSells sellFailPrimary (sellOrder [0, 1] 0)).2 = [0] ∧
    1 ∉ (attemptSells sellFailPrimary (sellOrder [0, 1] 0)).2 := by
  refine ⟨?_, ?_, ?_⟩ <;> simp [attemptSells, sellOrder, sellFailPrimary]

/-- C7 as amended: a primary sell failure is surfaced — the whole sweep
rejects with exactly that error, not a swallowed one — but it aborts the
sweep: the primary is the only sell attempted, and no remaining position
is attempted. -/
theorem primary_sell_failure_surfaces_and_aborts {α : Type} [DecidableEq α]
    (sell : α → Except String Unit) (tokens : List α) (winner : α) (e : String)
    (h : sell winner = .error e) :
    attemptSells sell (sellOrder tokens winner) = (.error e, [winner]) := by
  simp [attemptSells, sellOrder, h]

/-- C7 amended-claim witness. -/
theorem primary_sell_failure_surfaces_and_aborts_witness :
    sellFailPrimary 0 = .error "sell failed" ∧
    attemptSells sellFailPrimary (sellOrder [0, 1] 0) = (.error "sell failed", [0]) :=
  ⟨rfl, primary_sell_failure_surfaces_and_aborts sellFailPrimary [0, 1] 0
    "sell failed" rfl⟩

/-- A scraped candidate record (blockchain, ticker, contract address). -/
structure Entry where
  blockchain : String
  ticker : String
  contract_address : String
  deriving Repr, DecidableEq

/-- chainIdMapping (lines 104-112). -/
def chainIdMapping : String → Option String := fun b =>
  if b = "Ethereum" then some "1"
  else if b = "Binance Smart Chain" then some "56"
  else if b = "Polygon" then some "137"
  else if b = "Avalanche" then some "43114"
  else if b = "Arbitrum" then some "42161"
  else if b = "Fantom" then some "250"
  else none

/-- dexIdMapping (lines 114-122). -/
def dexIdMapping : String → Option String := fun b =>
  if b = "Ethereum" then some "1300"
  else if b = "Binance Smart Chain" then some "1200"
  else if b = "Avalanche" then some "1305"
  else if b = "Polygon" then some "1307"
  else if b = "Arbitrum" then some "1308"
  else if b = "Base" then some "1309"
  else if b = "Solana" then some "2700"
  else none

/-- USDTMapping (lines 124-128). -/
def USDTMapping : String → Option String := fun b =>
  if b = "Ethereum" then some "0xdAC17F958D2ee523a2206206994597C13D831ec7"
  else if b = "Solana" then some "Es9vMFrzaCERmJfrF4H2FYD4KCoNkY11McCe8BenwNYB"
  else if b = "Polygon" then some "0xc2132D05D31c914a87C6611C10748AEb04B58e8F"
  else none

/-- A JavaScript argument value as it reaches a parameter slot: a
string, an array of strings, or `undefined` (for a parameter the call
site did not supply). -/
inductive JsArg where
  | str (s : String)
  | strList (l : List String)
  | undef
  deriving Repr, DecidableEq

/-- getPriceQuote (src/expandswap.js lines 40-61), parameters
(dexId, path, amountIn).  Building the request evaluates
path.join, which throws a TypeError unless the `path` argument is
an array; with an array path the amountsOut list of the HTTP collaborator (or
thrown error) is passed through. -/
def getPriceQuote
    (http : JsArg → List String → JsArg → Except String (List String))
    (dexId pathValue amountIn : JsArg) : Except String (List String) :=
  match pathValue with
  | .strList p => http dexId p amountIn
  | _ => .error "TypeError: path.join is not a function"

/-- The hardcoded buy path of processNewEntries (line 155):
Polygon USDT -> Polygon WETH. -/
def buyTokenPath : List String :=
  ["0xc2132D05D31c914a87C6611C10748AEb04B58e8F",
   "0x7ceB23fD6bC0adD59E62ac25578270cFf1b9f619"]

/-- A bought position as pushed onto `boughtTokens` (lines 168-175). -/
structure BoughtToken where
  ticker : String
  contract_address : String
  usdt_address : String
  amount : String
  blockchain : String
  deriving Repr, DecidableEq

/-- The buy loop of processNewEntries (lines 133-180): per candidate,
mapping lookups (skip on a gap and continue), the buy swap (a per-entry
collaborator outcome), then the realized-amount query — translated
exactly as called on line 164, `getPriceQuote(buyTokenPath, amountIn)`:
its two arguments land in the `dexId` and `path` parameter slots and the
`amountIn` slot is undefined.  A thrown error anywhere inside the try
block logs, excludes the candidate and continues with the next. -/
def buyLoop (http : JsArg → List String → JsArg → Except String (List String))
    (execSwap : Entry → Except String Unit) (amountIn : String) :
    List Entry → List BoughtToken
  | [] => []
  | entry :: rest =>
    let tail := buyLoop http execSwap amountIn rest
    match chainIdMapping entry.blockchain, dexIdMapping entry.blockchain,
        USDTMapping entry.blockchain with
    | some _, some _, some usdtAddr =>
      match execSwap entry with
      | .error _ => tail
      | .ok _ =>
        match getPriceQuote http (.strList buyTokenPath) (.str amountIn) .undef with
        | .error _ => tail
        | .ok amountsOut =>
          { ticker := entry.ticker,
            contract_address := "0xC02aaA39b223FE8D0A0e5C4F27eAD9083C756Cc2",
            usdt_address := usdtAddr,
            amount := amountsOut.getD 1 "",
            blockchain := entry.blockchain } :: tail
    | _, _, _ => tail

/-- C8: the bought set is empty for every batch, every buy-swap
collaborator and every HTTP collaborator — no candidate ever yields a
Position, because the realized-amount query on line 164 passes the
amount string into the path parameter of getPriceQuote (two arguments for a
three-parameter function), so `path.join` throws and the catch excludes
the candidate even when its buy succeeded. -/
theorem bought_set_always_empty
    (http : JsArg → List String → JsArg → Except String (List String))
    (execSwap : Entry → Except String Unit) (amountIn : String)
    (entries : List Entry) :
    buyLoop http execSwap amountIn entries = [] := by
  induction entries with
  | nil => rfl
  | cons entry rest ih =>
    simp only [buyLoop, ih]
    rcases chainIdMapping entry.blockchain with _ | c
    · rfl
    · rcases dexIdMapping entry.blockchain with _ | d
      · rfl
      · rcases USDTMapping entry.blockchain with _ | u
        · rfl
        · rcases execSwap entry with e | v
          · rfl
          · rfl

/-- A collaborator call that resolved: either with a response whose
`response.data.status` is 400 (a rejection the code checks for), or with
a usable value. -/
inductive Resp (α : Type) where
  | r400
  | good (a : α)
  deriving Repr, DecidableEq

/-- Collaborator outcomes of one run of `executeSwap`: each field is the
result of the corresponding awaited call — `.error` models a thrown
(rejected) promise, `.ok` a resolved one.  Transaction payloads carry no
information the control flow reads, so they are `Unit`. -/
structure SwapEnv where
  approvePrepared : Except String (Resp Unit)
  approveSigned : Except String Unit
  approveSent : Except String (Resp Unit)
  quoteFetched : Except String Unit
  swapPrepared : Except String Unit
  swapSigned : Except String Unit
  swapSent : Except String (Resp Unit)
  deriving Repr

/-- The awaited external calls of `executeSwap`, in order. -/
inductive SwapAction where
  | approvePrepared
  | approveSigned
  | approveSent
  | quoteFetched
  | swapPrepared
  | swapSigned
  | swapSent
  deriving Repr, DecidableEq

/-- approveToken (src/expandswap.js lines 69-105): prepare the approval
(a 400 status logs and returns early — normally), sign it, send it (a
400 status again logs and returns early — normally); any thrown error is
logged and rethrown.  Returns the outcome and the calls performed. -/
def approveToken (env : SwapEnv) : Except String Unit × List SwapAction :=
  match env.approvePrepared with
  | .error e => (.error e, [.approvePrepared])
  | .ok .r400 => (.ok (), [.approvePrepared])
  | .ok (.good _) =>
    match env.approveSigned with
    | .error e => (.error e, [.approvePrepared, .approveSigned])
    | .ok _ =>
      match env.approveSent with
      | .error e => (.error e, [.approvePrepared, .approveSigned, .approveSent])
      | .ok _ => (.ok (), [.approvePrepared, .approveSigned, .approveSent])

/-- executeSwap (src/expandswap.js lines 141-170): approve (its return
value is ignored), fetch a quote, prepare, sign and send the swap; a 400
status on the swap send logs and returns normally, as does completion;
any thrown error is logged and rethrown.  The function returns no value
in every normal path (`Promise<void>`). -/
def executeSwap (env : SwapEnv) : Except String Unit × List SwapAction :=
  match approveToken env with
  | (.error e, tr) => (.error e, tr)
  | (.ok _, tr) =>
    match env.quoteFetched with
    | .error e => (.error e, tr ++ [.quoteFetched])
    | .ok _ =>
      match env.swapPrepared with
      | .error e => (.error e, tr ++ [.quoteFetched, .swapPrepared])
      | .ok _ =>
        match env.swapSigned with
        | .error e => (.error e, tr ++ [.quoteFetched, .swapPrepared, .swapSigned])
        | .ok _ =>
          match env.swapSent with
          | .error e =>
            (.error e, tr ++ [.quoteFetched, .swapPrepared, .swapSigned, .swapSent])
          | .ok _ =>
            (.ok (), tr ++ [.quoteFetched, .swapPrepared, .swapSigned, .swapSent])

/-- A run in which the approval preparation is rejected with a 400
status and everything else resolves. -/
def rejectedApprovalEnv : SwapEnv :=
  { approvePrepared := .ok .r400
    approveSigned := .ok ()
    approveSent := .ok (.good ())
    quoteFetched := .ok ()
    swapPrepared := .ok ()
    swapSigned := .ok ()
    swapSent := .ok (.good ()) }

/-- C9 counterexample: with the approval rejected (400), executeSwap
does not fail — it returns normally, and it still submits the swap
transaction: the rejection is logged and swallowed by the early normal
return in approveToken (line 84), so the claimed behavior — failing rather
than continuing or returning normally — is absent. -/
theorem rejected_approval_not_surfaced :
    (executeSwap rejectedApprovalEnv).1 = .ok () ∧
    SwapAction.swapSent ∈ (executeSwap rejectedApprovalEnv).2 := by
  refine ⟨rfl, ?_⟩
  simp [executeSwap, approveToken, rejectedApprovalEnv]

/-- C9 as amended: executeSwap performs approve-then-swap but returns no
realized output amount; a 400-status rejection of the approval
preparation, and a 400-status rejection of the swap send, are each
logged and swallowed — the swap is still attempted and executeSwap
returns normally.  Only a thrown error makes it fail, by propagating
that same error, in which case the swap is not attempted. -/
theorem executeSwap_swallows_rejections (env env2 : SwapEnv) (e : String)
    (h1 : env.approvePrepared = .ok .r400)
    (h2 : env.quoteFetched = .ok ())
    (h3 : env.swapPrepared = .ok ())
    (h4 : env.swapSigned = .ok ())
    (h5 : env.swapSent = .ok .r400)
    (h6 : env2.approvePrepared = .error e) :
    executeSwap env =
      (.ok (), [.approvePrepared, .quoteFetched, .swapPrepared, .swapSigned,
        .swapSent]) ∧
    executeSwap env2 = (.error e, [.approvePrepared]) := by
  constructor
  · simp [executeSwap, approveToken, h1, h2, h3, h4, h5]
  · simp [executeSwap, approveToken, h6]

/-- A run in which every awaited call resolves but both the approval
preparation and the swap send report a 400 rejection. -/
def doubleRejectionEnv : SwapEnv :=
  { approvePrepared := .ok .r400
    approveSigned := .ok ()
    approveSent := .ok (.good ())
    quoteFetched := .ok ()
    swapPrepared := .ok ()
    swapSigned := .ok ()
    swapSent := .ok .r400 }

/-- A run in which the approval preparation throws. -/
def thrownApprovalEnv : SwapEnv :=
  { approvePrepared := .error "transport error"
    approveSigned := .ok ()
    approveSent := .ok (.good ())
    quoteFetched := .ok ()
    swapPrepared := .ok ()
    swapSigned := .ok ()
    swapSent := .ok (.good ()) }

/-- C9 amended-claim witness. -/
theorem executeSwap_swallows_rejections_witness :
    (doubleRejectionEnv.approvePrepared = .ok .r400 ∧
      doubleRejectionEnv.quoteFetched = .ok () ∧
      doubleRejectionEnv.swapPrepared = .ok () ∧
      doubleRejectionEnv.swapSigned = .ok () ∧
      doubleRejectionEnv.swapSent = .ok .r400 ∧
      thrownApprovalEnv.approvePrepared = .error "transport error") ∧
    (executeSwap doubleRejectionEnv =
        (.ok (), [.approvePrepared, .quoteFetched, .swapPrepared, .swapSigned,
          .swapSent]) ∧
      executeSwap thrownApprovalEnv = (.error "transport error", [.approvePrepared])) :=
  ⟨⟨rfl, rfl, rfl, rfl, rfl, rfl⟩,
    executeSwap_swallows_rejections doubleRejectionEnv thrownApprovalEnv
      "transport error" rfl rfl rfl rfl rfl rfl⟩

/-- A promise as a step-indexed observation: `p n` is `some a` when the
promise has resolved with `a` by step n, `none` while it is pending.
`Promise.race` resolves as soon as any element has; over an empty list
it stays pending forever. -/
def raceAt {α : Type} (ps : List (ℕ → Option α)) (n : ℕ) : Option α :=
  match ps with
  | [] => none
  | p :: rest =>
    match p n with
    | some a => some a
    | none => raceAt rest n

/-- The `monitorPromises` array (line 183): one monitor promise per
bought token, built by some promise constructor `mk`. -/
def monitorPromises {α : Type} (mk : BoughtToken → ℕ → Option α)
    (boughtTokens : List BoughtToken) : List (ℕ → Option α) :=
  boughtTokens.map mk

/-- processNewEntries has completed its monitoring phase by step n iff
the race over the monitor promises has resolved by then (line 188):
everything after `await Promise.race(...)` runs only once it resolves. -/
def processNewEntriesDoneAt {α : Type} (promises : List (ℕ → Option α))
    (n : ℕ) : Bool :=
  (raceAt promises n).isSome

/-- The sells performed by step n: none until the race resolves; once it
resolves with winner w, the sweep of lines 191-198. -/
def sellsAt (promises : List (ℕ → Option BoughtToken))
    (sell : BoughtToken → Except String Unit)
    (boughtTokens : List BoughtToken) (n : ℕ) : List BoughtToken :=
  match raceAt promises n with
  | none => []
  | some w => (attemptSells sell (sellOrder boughtTokens w)).2

/-- The while(true) loop of main (lines 238-257) over a finite trace of
scrape outcomes: a scrape error is logged and the cycle skipped; a
nonempty entry list is handed to processNewEntries without awaiting it
(fire-and-forget); an empty list is logged.  Returns the batches handed
to processNewEntries — note that the outcome or completion of earlier
batches is not even an input to the loop. -/
def mainSchedule : List (Except String (List Entry)) → List (List Entry)
  | [] => []
  | .error _ :: rest => mainSchedule rest
  | .ok es :: rest =>
    if es.length > 0 then es :: mainSchedule rest else mainSchedule rest

/-- C10: when no candidate was bought, the race over the empty list of
monitor promises never resolves at any step, processNewEntries never
completes and never performs a sell; and the schedule of the discovery loop
over any continuation of the trace is the same as if the stuck batch
were not there — every later discovery cycle is still processed. -/
theorem empty_batch_race_never_resolves
    (mk : BoughtToken → ℕ → Option BoughtToken)
    (sell : BoughtToken → Except String Unit) (n : ℕ)
    (scrapes more : List (Except String (List Entry))) :
    raceAt (monitorPromises mk []) n = none ∧
    processNewEntriesDoneAt (monitorPromises mk []) n = false ∧
    sellsAt (monitorPromises mk []) sell [] n = [] ∧
    mainSchedule (scrapes ++ more) = mainSchedule scrapes ++ mainSchedule more := by
  refine ⟨rfl, rfl, rfl, ?_⟩
  induction scrapes with
  | nil => rfl
  | cons r rest ih =>
    rcases r with e | es
    · simpa [mainSchedule] using ih
    · rcases Nat.eq_zero_or_pos es.length with h | h
      · simp [mainSchedule, h, ih]
      · simp [mainSchedule, if_pos h, ih]

end CryptoBot
